import Mathlib

/-!
Verification of the cfgprofiles package: a Go library of structs and helpers
for Apple Configuration Profiles.  The development shallowly embeds the
plist-facing logic of the package: the payloadWrapper discriminated decode
(payloads.go), the multiString flexible-arity field (payloads.go), the
CommonPayload accessor, newPayloadForType, and Profile.AddPayload
(profile.go).  The groob/plist primitive codec is an external collaborator;
where its behaviour is needed it is modelled from the spec of its contract
(structural decode of primitive plist values into Go targets, structured
UnmarshalTypeError values on shape mismatch).
-/

namespace Cfgprofiles

/-- Modelled from the spec: the primitive value tree of the property-list
codec (external collaborator): scalars, byte blobs, ordered sequences and
string-keyed mappings. -/
inductive PlistValue where
  | str (s : String)
  | int (n : Int)
  | bool (b : Bool)
  | data (bytes : List Nat)
  | array (xs : List PlistValue)
  | dict (entries : List (String × PlistValue))

/-- Modelled from the spec: the structured error values of the primitive
codec.  unmarshalType models plist.UnmarshalTypeError with its Value
(human-readable description of the offending wire value) and Type (the name
of the attempted Go target type); wrapped models an error built with
fmt.Errorf wrapping a cause via the percent-w verb; other models any other
opaque error value. -/
inductive DecodeError where
  | unmarshalType (value : String) (goType : String)
  | wrapped (goType : String) (cause : DecodeError)
  | other (msg : String)
deriving DecidableEq, Repr

/-- Modelled from the spec: errors.As searching an error chain for a
plist.UnmarshalTypeError, unwrapping through fmt.Errorf percent-w wrapping. -/
def DecodeError.asUnmarshalType : DecodeError → Option (String × String)
  | .unmarshalType v t => some (v, t)
  | .wrapped _ cause => cause.asUnmarshalType
  | .other _ => none

/-- Modelled from the spec: the human-readable description of a wire value
that the codec places in the Value field of an UnmarshalTypeError (the test
suite shows the integer 42 described as "42"). -/
def PlistValue.errDesc : PlistValue → String
  | .str s => s
  | .int n => toString n
  | .bool b => toString b
  | .data _ => "data"
  | .array _ => "array"
  | .dict _ => "dictionary"

/-- Modelled from the spec: the codec materialising the current wire value
into a Go string target; any non-string wire value is a shape mismatch
reported as a structured UnmarshalTypeError. -/
def decodeStr : PlistValue → Except DecodeError String
  | .str s => .ok s
  | v => .error (.unmarshalType v.errDesc "string")

/-- Modelled from the spec: the codec materialising the current wire value
into a Go int target. -/
def decodeInt : PlistValue → Except DecodeError Int
  | .int n => .ok n
  | v => .error (.unmarshalType v.errDesc "int")

/-- Modelled from the spec: the codec materialising the current wire value
into a Go bool target. -/
def decodeBool : PlistValue → Except DecodeError Bool
  | .bool b => .ok b
  | v => .error (.unmarshalType v.errDesc "bool")

/-- Modelled from the spec: the codec materialising the current wire value
into a Go byte-slice target. -/
def decodeData : PlistValue → Except DecodeError (List Nat)
  | .data bs => .ok bs
  | v => .error (.unmarshalType v.errDesc "[]uint8")

/-- Modelled from the spec: element-wise decode of a wire sequence, failing
on the first element the element decoder rejects. -/
def decodeElems (d : PlistValue → Except DecodeError α) :
    List PlistValue → Except DecodeError (List α)
  | [] => .ok []
  | x :: xs => do
    let a ← d x
    let as ← decodeElems d xs
    pure (a :: as)

/-- Modelled from the spec: the codec materialising the current wire value
into a Go slice target with the given type name, using the given element
decoder; any non-sequence wire value is a shape mismatch. -/
def decodeList (tyName : String) (d : PlistValue → Except DecodeError α) :
    PlistValue → Except DecodeError (List α)
  | .array xs => decodeElems d xs
  | v => .error (.unmarshalType v.errDesc tyName)

/-- Modelled from the spec: the codec materialising the current wire value
into a Go string-slice target. -/
def decodeStringList : PlistValue → Except DecodeError (List String) :=
  decodeList "[]string" decodeStr

/-- The multiString type of payloads.go: a Go string slice with custom
plist marshal and unmarshal logic. -/
abbrev multiString := List String

/-- multiString.UnmarshalPlist from payloads.go, parametric in the decode
callback f.  The Go method calls f twice, once with a string target and
once with a string-slice target; fSingle and fMulti are the results of
those two calls.  On double failure the method inspects the second error
with errors.As: a chain holding a plist.UnmarshalTypeError is re-raised as
that error with its Type field overridden to cfgprofiles.multiString,
otherwise a generic error naming multiString wraps the cause. -/
def multiString.UnmarshalPlist (fSingle : Except DecodeError String)
    (fMulti : Except DecodeError multiString) : Except DecodeError multiString :=
  match fSingle with
  | .ok trySingle => .ok [trySingle]
  | .error _ =>
    match fMulti with
    | .ok tryMulti => .ok tryMulti
    | .error err =>
      match err.asUnmarshalType with
      | some (v, _) => .error (.unmarshalType v "cfgprofiles.multiString")
      | none => .error (.wrapped "cfgprofiles.multiString" err)

/-- multiString.UnmarshalPlist driven by the modelled codec on a concrete
wire value: the callback probes the same wire value first as a scalar
string, then as a string sequence. -/
def multiString.unmarshalPlistWire (v : PlistValue) : Except DecodeError multiString :=
  multiString.UnmarshalPlist (decodeStr v) (decodeStringList v)

/-- The Go value (interface\x7b\x7d) returned by multiString.MarshalPlist:
either a bare string or a string slice, to be serialised structurally by
the codec. -/
inductive MarshalValue where
  | str (s : String)
  | strList (xs : List String)
deriving DecidableEq, Repr

/-- multiString.MarshalPlist from payloads.go: empty values are an error,
a single element is emitted as the bare string, two or more elements are
emitted as a fresh copy of the slice (append of the elements onto a new
empty slice). -/
def multiString.MarshalPlist : multiString → Except String MarshalValue
  | [] => .error "cannot marshal empty cfgprofiles.multiString"
  | [s] => .ok (.str s)
  | n => .ok (.strList ([] ++ n))

/-- Modelled from the spec: the codec serialising a marshalled Go value
structurally (a string as a scalar, a string slice as a sequence). -/
def MarshalValue.encode : MarshalValue → PlistValue
  | .str s => .str s
  | .strList xs => .array (xs.map .str)

/-- The common Payload struct of payloads.go: the keys shared by every
payload, including profiles. -/
structure Payload where
  PayloadDescription : String
  PayloadDisplayName : String
  PayloadIdentifier : String
  PayloadOrganization : String
  PayloadUUID : String
  PayloadType : String
  PayloadVersion : Int
deriving DecidableEq, Repr

/-- The Go zero value of the Payload struct, as produced by a composite
literal with no fields. -/
def Payload.empty : Payload :=
  { PayloadDescription := "", PayloadDisplayName := "", PayloadIdentifier := ""
    PayloadOrganization := "", PayloadUUID := "", PayloadType := ""
    PayloadVersion := 0 }

/-- NewPayload from payloads.go: a raw payload with type t and identifier i.
The random UUID produced by uuid.New is an effect; it is modelled as the
explicit argument uuidStr, uppercased exactly as the Go code does. -/
def NewPayload (uuidStr t i : String) : Payload :=
  { Payload.empty with
    PayloadIdentifier := i
    PayloadUUID := uuidStr.toUpper
    PayloadType := t
    PayloadVersion := 1 }

/-- The SubjectAltName struct of payloads.go, holding flexible-arity
multiString fields. -/
structure SubjectAltName where
  DNSNames : multiString
  NTPrincipals : multiString
  RFC822Names : multiString
  URIs : multiString
deriving DecidableEq, Repr

/-- The Go zero value of SubjectAltName. -/
def SubjectAltName.empty : SubjectAltName :=
  { DNSNames := [], NTPrincipals := [], RFC822Names := [], URIs := [] }

/-- The CertificatePKCS1Payload struct of payloads.go, for the
com.apple.security.pkcs1 PayloadType. -/
structure CertificatePKCS1Payload where
  Payload : Payload
  PayloadCertificateFileName : String
  PayloadContent : List Nat
deriving DecidableEq, Repr

/-- The Go zero value of CertificatePKCS1Payload. -/
def CertificatePKCS1Payload.empty : CertificatePKCS1Payload :=
  { Payload := Payload.empty, PayloadCertificateFileName := "", PayloadContent := [] }

/-- The SCEPPayloadContent struct of payloads.go. -/
structure SCEPPayloadContent where
  URL : String
  Name : String
  Subject : List (List (List String))
  Challenge : String
  KeySize : Int
  KeyType : String
  KeyUsage : Int
  Retries : Int
  RetryDelay : Int
  CAFingerprint : List Nat
  AllowAllAppsAccess : Bool
  KeyIsExtractable : Option Bool
  SubjectAltName : Option SubjectAltName
deriving DecidableEq, Repr

/-- The Go zero value of SCEPPayloadContent. -/
def SCEPPayloadContent.empty : SCEPPayloadContent :=
  { URL := "", Name := "", Subject := [], Challenge := "", KeySize := 0
    KeyType := "", KeyUsage := 0, Retries := 0, RetryDelay := 0
    CAFingerprint := [], AllowAllAppsAccess := false, KeyIsExtractable := none
    SubjectAltName := none }

/-- The SCEPPayload struct of payloads.go, for the com.apple.security.scep
PayloadType. -/
structure SCEPPayload where
  Payload : Payload
  PayloadContent : SCEPPayloadContent
deriving DecidableEq, Repr

/-- The Go zero value of SCEPPayload. -/
def SCEPPayload.empty : SCEPPayload :=
  { Payload := Payload.empty, PayloadContent := SCEPPayloadContent.empty }

/-- The ACMECertificatePayload struct of payloads.go, for the
com.apple.security.acme PayloadType. -/
structure ACMECertificatePayload where
  Payload : Payload
  AllowAllAppsAccess : Bool
  Attest : Bool
  ClientIdentifier : String
  DirectoryURL : String
  ExtendedKeyUsage : List String
  HardwareBound : Bool
  KeySize : Int
  KeyIsExtractable : Option Bool
  KeyType : String
  Subject : List (List (List String))
  UsageFlags : Int
  SubjectAltName : Option SubjectAltName
deriving DecidableEq, Repr

/-- The Go zero value of ACMECertificatePayload. -/
def ACMECertificatePayload.empty : ACMECertificatePayload :=
  { Payload := Payload.empty, AllowAllAppsAccess := false, Attest := false
    ClientIdentifier := "", DirectoryURL := "", ExtendedKeyUsage := []
    HardwareBound := false, KeySize := 0, KeyIsExtractable := none
    KeyType := "", Subject := [], UsageFlags := 0, SubjectAltName := none }

/-- The MDMPayload struct of payloads.go, for the com.apple.mdm
PayloadType. -/
structure MDMPayload where
  Payload : Payload
  IdentityCertificateUUID : String
  Topic : String
  ServerURL : String
  ServerCapabilities : List String
  SignMessage : Bool
  CheckInURL : String
  CheckOutWhenRemoved : Bool
  AccessRights : Int
  UseDevelopmentAPNS : Bool
  ServerURLPinningCertificateUUIDs : List String
  CheckInURLPinningCertificateUUIDs : List String
  PinningRevocationCheckRequired : Bool
deriving DecidableEq, Repr

/-- The Go zero value of MDMPayload. -/
def MDMPayload.empty : MDMPayload :=
  { Payload := Payload.empty, IdentityCertificateUUID := "", Topic := ""
    ServerURL := "", ServerCapabilities := [], SignMessage := false
    CheckInURL := "", CheckOutWhenRemoved := false, AccessRights := 0
    UseDevelopmentAPNS := false, ServerURLPinningCertificateUUIDs := []
    CheckInURLPinningCertificateUUIDs := [], PinningRevocationCheckRequired := false }

/-- The universe of Go interface values a payload slot can hold: a pointer
to one of the four concrete payload structs, a pointer to the common
Payload struct (the unknown variant), or a value of any other dynamic type
(which also covers a nil interface). -/
inductive GoValue where
  | certificatePKCS1 (p : CertificatePKCS1Payload)
  | mdm (p : MDMPayload)
  | scep (p : SCEPPayload)
  | acme (p : ACMECertificatePayload)
  | payload (p : Payload)
  | otherType
deriving DecidableEq, Repr

/-- The Go dynamic type name of a payload interface value. -/
def GoValue.typeName : GoValue → String
  | .certificatePKCS1 _ => "*cfgprofiles.CertificatePKCS1Payload"
  | .mdm _ => "*cfgprofiles.MDMPayload"
  | .scep _ => "*cfgprofiles.SCEPPayload"
  | .acme _ => "*cfgprofiles.ACMECertificatePayload"
  | .payload _ => "*cfgprofiles.Payload"
  | .otherType => "other"

/-- newPayloadForType from payloads.go: instantiates an empty payload
struct for the PayloadType string t. -/
def newPayloadForType (t : String) : GoValue :=
  match t with
  | "com.apple.security.pkcs1" => .certificatePKCS1 CertificatePKCS1Payload.empty
  | "com.apple.mdm" => .mdm MDMPayload.empty
  | "com.apple.security.scep" => .scep SCEPPayload.empty
  | "com.apple.security.acme" => .acme ACMECertificatePayload.empty
  | _ => .payload Payload.empty

/-- CommonPayload from payloads.go: the common Payload struct of a profile
payload interface value, or nil (none) for any other dynamic type. -/
def CommonPayload : GoValue → Option Payload
  | .certificatePKCS1 pl => some pl.Payload
  | .scep pl => some pl.Payload
  | .acme pl => some pl.Payload
  | .mdm pl => some pl.Payload
  | .payload pl => some pl
  | .otherType => none

/-- NewCertificatePKCS1Payload from payloads.go (uuid effect as argument). -/
def NewCertificatePKCS1Payload (uuidStr i : String) : CertificatePKCS1Payload :=
  { CertificatePKCS1Payload.empty with
    Payload := NewPayload uuidStr "com.apple.security.pkcs1" i }

/-- NewSCEPPayload from payloads.go (uuid effect as argument). -/
def NewSCEPPayload (uuidStr i : String) : SCEPPayload :=
  { SCEPPayload.empty with Payload := NewPayload uuidStr "com.apple.security.scep" i }

/-- NewACMECertificatePayload from payloads.go (uuid effect as argument). -/
def NewACMECertificatePayload (uuidStr i : String) : ACMECertificatePayload :=
  { ACMECertificatePayload.empty with
    Payload := NewPayload uuidStr "com.apple.security.acme" i }

/-- NewMDMPayload from payloads.go (uuid effect as argument). -/
def NewMDMPayload (uuidStr i : String) : MDMPayload :=
  { MDMPayload.empty with Payload := NewPayload uuidStr "com.apple.mdm" i }

/-- The payloadWrapper struct of payloads.go: a wrapper around a profile
payload struct held as a Go interface value. -/
structure payloadWrapper where
  Payload : GoValue
deriving DecidableEq, Repr

/-- The Profile struct of profile.go.  Pointer-to-time fields are modelled
as optional timestamps; the map field as an association list. -/
structure Profile where
  Payload : Payload
  PayloadContent : List payloadWrapper
  PayloadExpirationDate : Option Int
  PayloadRemovalDisallowed : Bool
  PayloadScope : String
  PayloadDate : Option Int
  DurationUntilRemoval : Float
  ConsentText : List (String × String)
  EncryptedPayloadContent : List Nat
  HasRemovalPasscode : Bool
  IsEncrypted : Bool
  RemovalDate : Option Int
  TargetDeviceType : Int

/-- The Go zero value of Profile. -/
def Profile.emptyProfile : Profile :=
  { Payload := Payload.empty, PayloadContent := [], PayloadExpirationDate := none
    PayloadRemovalDisallowed := false, PayloadScope := "", PayloadDate := none
    DurationUntilRemoval := 0, ConsentText := [], EncryptedPayloadContent := []
    HasRemovalPasscode := false, IsEncrypted := false, RemovalDate := none
    TargetDeviceType := 0 }

/-- NewProfile from profile.go (uuid effect as argument). -/
def NewProfile (uuidStr i : String) : Profile :=
  { Profile.emptyProfile with Payload := NewPayload uuidStr "Configuration" i }

/-- Profile.AddPayload from profile.go: appends a payload struct to the
profile, wrapped in a payloadWrapper for correct plist marshalling. -/
def Profile.AddPayload (p : Profile) (pld : GoValue) : Profile :=
  { p with PayloadContent := p.PayloadContent ++ [{ Payload := pld }] }

/-- Modelled from the spec: the codec decoding one named struct field from
a string-keyed mapping.  A missing key leaves the Go zero value dflt; a
present key must decode with the field decoder d.  Unknown extra keys are
ignored by the codec. -/
def decodeField (d : PlistValue → Except DecodeError α) (dflt : α)
    (k : String) (es : List (String × PlistValue)) : Except DecodeError α :=
  match es.lookup k with
  | none => .ok dflt
  | some v => d v

/-- Modelled from the spec: the codec decoding a pointer-typed struct field
from a string-keyed mapping; a missing key leaves the field nil. -/
def decodeOptField (d : PlistValue → Except DecodeError α)
    (k : String) (es : List (String × PlistValue)) : Except DecodeError (Option α) :=
  match es.lookup k with
  | none => .ok none
  | some v => (d v).map some

/-- Modelled from the spec: decoding the fields of a SubjectAltName struct
from a mapping; each field is a flexible-arity multiString decoded by the
custom multiString.UnmarshalPlist hook on its own wire value. -/
def decodeSubjectAltNameFields (es : List (String × PlistValue)) :
    Except DecodeError SubjectAltName := do
  let dns ← decodeField multiString.unmarshalPlistWire [] "dNSName" es
  let ntp ← decodeField multiString.unmarshalPlistWire [] "ntPrincipalName" es
  let rfc ← decodeField multiString.unmarshalPlistWire [] "rfc822Name" es
  let uri ← decodeField multiString.unmarshalPlistWire [] "uniformResourceIdentifier" es
  pure { DNSNames := dns, NTPrincipals := ntp, RFC822Names := rfc, URIs := uri }

/-- Modelled from the spec: the codec materialising a wire value into a
SubjectAltName struct target. -/
def decodeSubjectAltName : PlistValue → Except DecodeError SubjectAltName
  | .dict es => decodeSubjectAltNameFields es
  | v => .error (.unmarshalType v.errDesc "cfgprofiles.SubjectAltName")

/-- Modelled from the spec: decoding a Subject field, a triply nested
string slice. -/
def decodeSubject : PlistValue → Except DecodeError (List (List (List String))) :=
  decodeList "[][][]string" (decodeList "[][]string" (decodeList "[]string" decodeStr))

/-- Modelled from the spec: decoding the common Payload keys from a
mapping, in struct declaration order. -/
def decodePayloadFields (es : List (String × PlistValue)) :
    Except DecodeError Payload := do
  let desc ← decodeField decodeStr "" "PayloadDescription" es
  let disp ← decodeField decodeStr "" "PayloadDisplayName" es
  let ident ← decodeField decodeStr "" "PayloadIdentifier" es
  let org ← decodeField decodeStr "" "PayloadOrganization" es
  let uuid ← decodeField decodeStr "" "PayloadUUID" es
  let ptype ← decodeField decodeStr "" "PayloadType" es
  let ver ← decodeField decodeInt 0 "PayloadVersion" es
  pure { PayloadDescription := desc, PayloadDisplayName := disp
         PayloadIdentifier := ident, PayloadOrganization := org
         PayloadUUID := uuid, PayloadType := ptype, PayloadVersion := ver }

/-- Modelled from the spec: decoding the fields of a CertificatePKCS1Payload
from a mapping (embedded common keys plus the variant-specific keys). -/
def decodeCertificatePKCS1 (es : List (String × PlistValue)) :
    Except DecodeError CertificatePKCS1Payload := do
  let common ← decodePayloadFields es
  let fileName ← decodeField decodeStr "" "PayloadCertificateFileName" es
  let content ← decodeField decodeData [] "PayloadContent" es
  pure { Payload := common, PayloadCertificateFileName := fileName
         PayloadContent := content }

/-- Modelled from the spec: decoding the fields of a SCEPPayloadContent
struct from a mapping, honouring the plist key renames Keysize, Key Type
and Key Usage. -/
def decodeSCEPPayloadContentFields (es : List (String × PlistValue)) :
    Except DecodeError SCEPPayloadContent := do
  let url ← decodeField decodeStr "" "URL" es
  let name ← decodeField decodeStr "" "Name" es
  let subject ← decodeField decodeSubject [] "Subject" es
  let challenge ← decodeField decodeStr "" "Challenge" es
  let keySize ← decodeField decodeInt 0 "Keysize" es
  let keyType ← decodeField decodeStr "" "Key Type" es
  let keyUsage ← decodeField decodeInt 0 "Key Usage" es
  let retries ← decodeField decodeInt 0 "Retries" es
  let retryDelay ← decodeField decodeInt 0 "RetryDelay" es
  let caFingerprint ← decodeField decodeData [] "CAFingerprint" es
  let allowAll ← decodeField decodeBool false "AllowAllAppsAccess" es
  let keyExtract ← decodeOptField decodeBool "KeyIsExtractable" es
  let san ← decodeOptField decodeSubjectAltName "SubjectAltName" es
  pure { URL := url, Name := name, Subject := subject, Challenge := challenge
         KeySize := keySize, KeyType := keyType, KeyUsage := keyUsage
         Retries := retries, RetryDelay := retryDelay
         CAFingerprint := caFingerprint, AllowAllAppsAccess := allowAll
         KeyIsExtractable := keyExtract, SubjectAltName := san }

/-- Modelled from the spec: the codec materialising a wire value into a
SCEPPayloadContent struct target. -/
def decodeSCEPPayloadContent : PlistValue → Except DecodeError SCEPPayloadContent
  | .dict es => decodeSCEPPayloadContentFields es
  | v => .error (.unmarshalType v.errDesc "cfgprofiles.SCEPPayloadContent")

/-- Modelled from the spec: decoding the fields of a SCEPPayload from a
mapping. -/
def decodeSCEP (es : List (String × PlistValue)) : Except DecodeError SCEPPayload := do
  let common ← decodePayloadFields es
  let content ← decodeField decodeSCEPPayloadContent SCEPPayloadContent.empty
    "PayloadContent" es
  pure { Payload := common, PayloadContent := content }

/-- Modelled from the spec: decoding the fields of an ACMECertificatePayload
from a mapping. -/
def decodeACME (es : List (String × PlistValue)) :
    Except DecodeError ACMECertificatePayload := do
  let common ← decodePayloadFields es
  let allowAll ← decodeField decodeBool false "AllowAllAppsAccess" es
  let attest ← decodeField decodeBool false "Attest" es
  let clientId ← decodeField decodeStr "" "ClientIdentifier" es
  let dirURL ← decodeField decodeStr "" "DirectoryURL" es
  let eku ← decodeField decodeStringList [] "ExtendedKeyUsage" es
  let hw ← decodeField decodeBool false "HardwareBound" es
  let keySize ← decodeField decodeInt 0 "KeySize" es
  let keyExtract ← decodeOptField decodeBool "KeyIsExtractable" es
  let keyType ← decodeField decodeStr "" "KeyType" es
  let subject ← decodeField decodeSubject [] "Subject" es
  let usage ← decodeField decodeInt 0 "UsageFlags" es
  let san ← decodeOptField decodeSubjectAltName "SubjectAltName" es
  pure { Payload := common, AllowAllAppsAccess := allowAll, Attest := attest
         ClientIdentifier := clientId, DirectoryURL := dirURL
         ExtendedKeyUsage := eku, HardwareBound := hw, KeySize := keySize
         KeyIsExtractable := keyExtract, KeyType := keyType, Subject := subject
         UsageFlags := usage, SubjectAltName := san }

/-- Modelled from the spec: decoding the fields of an MDMPayload from a
mapping. -/
def decodeMDM (es : List (String × PlistValue)) : Except DecodeError MDMPayload := do
  let common ← decodePayloadFields es
  let identUUID ← decodeField decodeStr "" "IdentityCertificateUUID" es
  let topic ← decodeField decodeStr "" "Topic" es
  let serverURL ← decodeField decodeStr "" "ServerURL" es
  let caps ← decodeField decodeStringList [] "ServerCapabilities" es
  let sign ← decodeField decodeBool false "SignMessage" es
  let checkIn ← decodeField decodeStr "" "CheckInURL" es
  let checkOut ← decodeField decodeBool false "CheckOutWhenRemoved" es
  let rights ← decodeField decodeInt 0 "AccessRights" es
  let devAPNS ← decodeField decodeBool false "UseDevelopmentAPNS" es
  let pin1 ← decodeField decodeStringList [] "ServerURLPinningCertificateUUIDs" es
  let pin2 ← decodeField decodeStringList [] "CheckInURLPinningCertificateUUIDs" es
  let pinRev ← decodeField decodeBool false "PinningRevocationCheckRequired" es
  pure { Payload := common, IdentityCertificateUUID := identUUID, Topic := topic
         ServerURL := serverURL, ServerCapabilities := caps, SignMessage := sign
         CheckInURL := checkIn, CheckOutWhenRemoved := checkOut
         AccessRights := rights, UseDevelopmentAPNS := devAPNS
         ServerURLPinningCertificateUUIDs := pin1
         CheckInURLPinningCertificateUUIDs := pin2
         PinningRevocationCheckRequired := pinRev }

/-- Modelled from the spec: the codec driving a payload sub-document into
a struct target of the given dynamic shape (the second decode pass of the
wrapper).  Only shapes produced by newPayloadForType occur; any other
target is rejected.  A non-mapping wire value is a shape mismatch. -/
def decodePayloadStruct (target : GoValue) : PlistValue → Except DecodeError GoValue
  | .dict es =>
    match target with
    | .certificatePKCS1 _ => (decodeCertificatePKCS1 es).map GoValue.certificatePKCS1
    | .mdm _ => (decodeMDM es).map GoValue.mdm
    | .scep _ => (decodeSCEP es).map GoValue.scep
    | .acme _ => (decodeACME es).map GoValue.acme
    | .payload _ => (decodePayloadFields es).map GoValue.payload
    | .otherType => .error (.other "unsupported decode target")
  | v => .error (.unmarshalType v.errDesc "struct")

/-- Modelled from the spec: the first decode pass of the wrapper, decoding
only the PayloadType discriminator string from the sub-document into an
anonymous struct with the single field PayloadType (zero value on a
missing key). -/
def decodePayloadTypeOnly : PlistValue → Except DecodeError String
  | .dict es => decodeField decodeStr "" "PayloadType" es
  | v => .error (.unmarshalType v.errDesc "struct { PayloadType string }")

/-- payloadWrapper.UnmarshalPlist from payloads.go, parametric in the
decode callback f.  The Go method calls f twice over the same sub-document:
typePass is the result of the first call (the PayloadType string driven
into the anonymous probe struct) and bodyPass the behaviour of the second
call as a function of the fresh target struct.  The receiver w is returned
together with the Go error value: on any failure the error propagates
as-is and the receiver is untouched; on success the populated variant is
stored in the Payload field. -/
def payloadWrapper.UnmarshalPlist (typePass : Except DecodeError String)
    (bodyPass : GoValue → Except DecodeError GoValue)
    (w : payloadWrapper) : payloadWrapper × Option DecodeError :=
  match typePass with
  | .error e => (w, some e)
  | .ok plType =>
    match bodyPass (newPayloadForType plType) with
    | .error e => (w, some e)
    | .ok plStruct => ({ Payload := plStruct }, none)

/-- payloadWrapper.UnmarshalPlist driven by the modelled codec on a
concrete wire sub-document: both passes re-parse the same wire value from
its start. -/
def payloadWrapper.unmarshalPlistWire (v : PlistValue) (w : payloadWrapper) :
    payloadWrapper × Option DecodeError :=
  payloadWrapper.UnmarshalPlist (decodePayloadTypeOnly v)
    (fun target => decodePayloadStruct target v) w

/-- payloadWrapper.MarshalPlist from payloads.go: returns the wrapped
payload struct for the codec to serialise, never an error. -/
def payloadWrapper.MarshalPlist (w : payloadWrapper) : Except DecodeError GoValue :=
  .ok w.Payload

/-- Destructing a successful Except bind. -/
theorem bind_ok {ε α β : Type} {x : Except ε α} {f : α → Except ε β} {b : β}
    (h : x >>= f = .ok b) : ∃ a, x = .ok a ∧ f a = .ok b := by
  cases x with
  | error e =>
    simp only [Bind.bind, Except.bind] at h
    exact Except.noConfusion h
  | ok a => exact ⟨a, rfl, h⟩

/-- Destructing a successful Except map. -/
theorem map_ok {ε α β : Type} {x : Except ε α} {f : α → β} {b : β}
    (h : x.map f = .ok b) : ∃ a, x = .ok a ∧ b = f a := by
  cases x with
  | error e =>
    simp only [Except.map] at h
    exact Except.noConfusion h
  | ok a => exact ⟨a, rfl, by simpa [Except.map, eq_comm] using h⟩

/-- A successful scalar string probe pins the wire value. -/
theorem decodeStr_ok {v : PlistValue} {s : String} (h : decodeStr v = .ok s) :
    v = .str s := by
  cases v <;> simp only [decodeStr] at h <;> simp_all

/-- Element-wise decode of a sequence of string wire values succeeds and
returns exactly those strings. -/
theorem decodeElems_map_str (ss : List String) :
    decodeElems decodeStr (ss.map PlistValue.str) = .ok ss := by
  induction ss with
  | nil => rfl
  | cons s ss ih =>
    simp only [List.map, decodeElems, decodeStr, ih]
    rfl

/-- A successful element-wise string decode forces every element of the
wire sequence to be a scalar string. -/
theorem decodeElems_ok {xs : List PlistValue} {m : List String}
    (h : decodeElems decodeStr xs = .ok m) : xs = m.map PlistValue.str := by
  induction xs generalizing m with
  | nil =>
    simp only [decodeElems] at h
    cases h
    rfl
  | cons x xs ih =>
    simp only [decodeElems] at h
    obtain ⟨a, ha, h⟩ := bind_ok h
    obtain ⟨as, has, h⟩ := bind_ok h
    cases h
    rw [decodeStr_ok ha, ih has]
    rfl

/-- The string-slice probe on a sequence of scalar strings. -/
theorem decodeStringList_map_str (ss : List String) :
    decodeStringList (.array (ss.map PlistValue.str)) = .ok ss := by
  simp only [decodeStringList, decodeList, decodeElems_map_str]

/-- A successful string-slice probe pins the wire value to a sequence of
scalar strings. -/
theorem decodeStringList_ok {v : PlistValue} {m : List String}
    (h : decodeStringList v = .ok m) : v = .array (m.map PlistValue.str) := by
  cases v <;> simp only [decodeStringList, decodeList] at h <;> try simp_all
  rw [decodeElems_ok h]

/-- multiString.UnmarshalPlist on a scalar string wire value. -/
theorem unmarshalPlistWire_str (s : String) :
    multiString.unmarshalPlistWire (.str s) = .ok [s] := rfl

/-- multiString.UnmarshalPlist on a string-sequence wire value. -/
theorem unmarshalPlistWire_strArray (ss : List String) :
    multiString.unmarshalPlistWire (.array (ss.map PlistValue.str)) = .ok ss := by
  unfold multiString.unmarshalPlistWire
  rw [decodeStringList_map_str]
  rfl

/-- A successful decode of the common Payload keys reads the PayloadType
key of the mapping (the same lookup the discriminator pass performs) into
the PayloadType field. -/
theorem decodePayloadFields_payloadType {es : List (String × PlistValue)}
    {pl : Payload} (h : decodePayloadFields es = .ok pl) :
    decodeField decodeStr "" "PayloadType" es = .ok pl.PayloadType := by
  unfold decodePayloadFields at h
  obtain ⟨a1, h1, h⟩ := bind_ok h
  obtain ⟨a2, h2, h⟩ := bind_ok h
  obtain ⟨a3, h3, h⟩ := bind_ok h
  obtain ⟨a4, h4, h⟩ := bind_ok h
  obtain ⟨a5, h5, h⟩ := bind_ok h
  obtain ⟨a6, h6, h⟩ := bind_ok h
  obtain ⟨a7, h7, h⟩ := bind_ok h
  cases h
  exact h6

/-- Decoding a CertificatePKCS1Payload embeds a successful decode of the
common keys. -/
theorem decodeCertificatePKCS1_common {es : List (String × PlistValue)}
    {p : CertificatePKCS1Payload} (h : decodeCertificatePKCS1 es = .ok p) :
    decodePayloadFields es = .ok p.Payload := by
  unfold decodeCertificatePKCS1 at h
  obtain ⟨a1, h1, h⟩ := bind_ok h
  obtain ⟨a2, h2, h⟩ := bind_ok h
  obtain ⟨a3, h3, h⟩ := bind_ok h
  cases h
  exact h1

/-- Decoding a SCEPPayload embeds a successful decode of the common keys. -/
theorem decodeSCEP_common {es : List (String × PlistValue)}
    {p : SCEPPayload} (h : decodeSCEP es = .ok p) :
    decodePayloadFields es = .ok p.Payload := by
  unfold decodeSCEP at h
  obtain ⟨a1, h1, h⟩ := bind_ok h
  obtain ⟨a2, h2, h⟩ := bind_ok h
  cases h
  exact h1

/-- Decoding an ACMECertificatePayload embeds a successful decode of the
common keys. -/
theorem decodeACME_common {es : List (String × PlistValue)}
    {p : ACMECertificatePayload} (h : decodeACME es = .ok p) :
    decodePayloadFields es = .ok p.Payload := by
  unfold decodeACME at h
  obtain ⟨a1, h1, h⟩ := bind_ok h
  obtain ⟨a2, h2, h⟩ := bind_ok h
  obtain ⟨a3, h3, h⟩ := bind_ok h
  obtain ⟨a4, h4, h⟩ := bind_ok h
  obtain ⟨a5, h5, h⟩ := bind_ok h
  obtain ⟨a6, h6, h⟩ := bind_ok h
  obtain ⟨a7, h7, h⟩ := bind_ok h
  obtain ⟨a8, h8, h⟩ := bind_ok h
  obtain ⟨a9, h9, h⟩ := bind_ok h
  obtain ⟨a10, h10, h⟩ := bind_ok h
  obtain ⟨a11, h11, h⟩ := bind_ok h
  obtain ⟨a12, h12, h⟩ := bind_ok h
  obtain ⟨a13, h13, h⟩ := bind_ok h
  cases h
  exact h1

/-- Decoding an MDMPayload embeds a successful decode of the common keys. -/
theorem decodeMDM_common {es : List (String × PlistValue)}
    {p : MDMPayload} (h : decodeMDM es = .ok p) :
    decodePayloadFields es = .ok p.Payload := by
  unfold decodeMDM at h
  obtain ⟨a1, h1, h⟩ := bind_ok h
  obtain ⟨a2, h2, h⟩ := bind_ok h
  obtain ⟨a3, h3, h⟩ := bind_ok h
  obtain ⟨a4, h4, h⟩ := bind_ok h
  obtain ⟨a5, h5, h⟩ := bind_ok h
  obtain ⟨a6, h6, h⟩ := bind_ok h
  obtain ⟨a7, h7, h⟩ := bind_ok h
  obtain ⟨a8, h8, h⟩ := bind_ok h
  obtain ⟨a9, h9, h⟩ := bind_ok h
  obtain ⟨a10, h10, h⟩ := bind_ok h
  obtain ⟨a11, h11, h⟩ := bind_ok h
  obtain ⟨a12, h12, h⟩ := bind_ok h
  obtain ⟨a13, h13, h⟩ := bind_ok h
  cases h
  exact h1

/-- On double probe failure, multiString.UnmarshalPlist dispatches on the
errors.As search of the second error. -/
theorem multiString_UnmarshalPlist_double_error (eS eM : DecodeError) :
    multiString.UnmarshalPlist (.error eS) (.error eM) =
      match eM.asUnmarshalType with
      | some (v, _) => .error (.unmarshalType v "cfgprofiles.multiString")
      | none => .error (.wrapped "cfgprofiles.multiString" eM) := rfl

/-- On double probe failure, multiString.UnmarshalPlist always fails. -/
theorem unmarshalPlist_double_error_exists (eS eM : DecodeError) :
    ∃ e, multiString.UnmarshalPlist (.error eS) (.error eM) = .error e := by
  rw [multiString_UnmarshalPlist_double_error]
  cases hA : eM.asUnmarshalType with
  | some p =>
    obtain ⟨pv, pt⟩ := p
    exact ⟨_, rfl⟩
  | none => exact ⟨_, rfl⟩

/-- Claim C1: for every discriminator string t, newPayloadForType is total
and never fails: it returns an empty CertificatePKCS1Payload for
com.apple.security.pkcs1, an empty MDMPayload for com.apple.mdm, an empty
SCEPPayload for com.apple.security.scep, an empty ACMECertificatePayload
for com.apple.security.acme, and an empty common Payload (the unknown
variant) for every other string. -/
theorem newPayloadForType_total_registry :
    newPayloadForType "com.apple.security.pkcs1" =
      .certificatePKCS1 CertificatePKCS1Payload.empty ∧
    newPayloadForType "com.apple.mdm" = .mdm MDMPayload.empty ∧
    newPayloadForType "com.apple.security.scep" = .scep SCEPPayload.empty ∧
    newPayloadForType "com.apple.security.acme" =
      .acme ACMECertificatePayload.empty ∧
    ∀ t, t ≠ "com.apple.security.pkcs1" → t ≠ "com.apple.mdm" →
      t ≠ "com.apple.security.scep" → t ≠ "com.apple.security.acme" →
      newPayloadForType t = .payload Payload.empty := by
  refine ⟨rfl, rfl, rfl, rfl, ?_⟩
  intro t h1 h2 h3 h4
  unfold newPayloadForType
  split <;> simp_all

/-- Witness for C1: an unrecognised discriminator string maps to the empty
common Payload. -/
theorem newPayloadForType_total_registry_witness :
    newPayloadForType "com.example.custom" = .payload Payload.empty :=
  newPayloadForType_total_registry.2.2.2.2 "com.example.custom"
    (by decide) (by decide) (by decide) (by decide)

/-- Claim C2: multiString.UnmarshalPlist first attempts a scalar string and
on success yields the one-element sequence holding it; otherwise it
attempts an ordered sequence of strings and on success yields exactly that
sequence with order preserved; both success cases return success. -/
theorem multiString_unmarshal_success_cases :
    (∀ s, multiString.unmarshalPlistWire (.str s) = .ok [s]) ∧
    (∀ ss, multiString.unmarshalPlistWire (.array (ss.map PlistValue.str)) = .ok ss) :=
  ⟨unmarshalPlistWire_str, unmarshalPlistWire_strArray⟩

/-- Claim C3: multiString.MarshalPlist behaves by length: length 0 fails
with the empty-value error, length 1 emits the single string as a bare
scalar, length at least 2 emits the strings as an ordered sequence in
original order. -/
theorem multiString_marshal_by_length :
    multiString.MarshalPlist [] =
      .error "cannot marshal empty cfgprofiles.multiString" ∧
    (∀ s, multiString.MarshalPlist [s] = .ok (.str s)) ∧
    (∀ a b rest, multiString.MarshalPlist (a :: b :: rest) =
      .ok (.strList (a :: b :: rest))) :=
  ⟨rfl, fun _ => rfl, fun _ _ _ => rfl⟩

/-- Claim C4: for every multiString of length at least 1, marshalling and
then unmarshalling the encoded wire value yields the original sequence,
element values and order preserved. -/
theorem multiString_roundtrip (m : multiString) (h : 1 ≤ m.length) :
    ∃ out, multiString.MarshalPlist m = .ok out ∧
      multiString.unmarshalPlistWire out.encode = .ok m := by
  match m with
  | [] => simp at h
  | [s] => exact ⟨.str s, rfl, unmarshalPlistWire_str s⟩
  | a :: b :: rest =>
    refine ⟨.strList (a :: b :: rest), rfl, ?_⟩
    exact unmarshalPlistWire_strArray (a :: b :: rest)

/-- Witness for C4: the two-element value round-trips through a string
sequence. -/
theorem multiString_roundtrip_witness :
    ∃ out, multiString.MarshalPlist ["test1.example.com", "test2.example.com"] = .ok out ∧
      multiString.unmarshalPlistWire out.encode =
        .ok ["test1.example.com", "test2.example.com"] :=
  multiString_roundtrip ["test1.example.com", "test2.example.com"] (by decide)

/-- Claim C5: a wire value that is neither a scalar string nor a string
sequence fails to unmarshal; when the second probe reports a structured
UnmarshalTypeError the method re-raises that error with its type field
replaced by cfgprofiles.multiString, preserving the offending value; any
other underlying failure is wrapped in a generic error naming
cfgprofiles.multiString together with the cause. -/
theorem multiString_unmarshal_error_naming :
    (∀ v, (∀ s, v ≠ .str s) →
      (∀ ss : List String, v ≠ .array (ss.map PlistValue.str)) →
      ∃ e, multiString.unmarshalPlistWire v = .error e) ∧
    (∀ eS val ty, multiString.UnmarshalPlist (.error eS)
        (.error (.unmarshalType val ty)) =
      .error (.unmarshalType val "cfgprofiles.multiString")) ∧
    (∀ eS msg, multiString.UnmarshalPlist (.error eS) (.error (.other msg)) =
      .error (.wrapped "cfgprofiles.multiString" (.other msg))) := by
  refine ⟨?_, fun _ _ _ => rfl, fun _ _ => rfl⟩
  intro v hStr hArr
  cases hS : decodeStr v with
  | ok s => exact absurd (decodeStr_ok hS) (hStr s)
  | error eS =>
    cases hM : decodeStringList v with
    | ok m => exact absurd (decodeStringList_ok hM) (hArr m)
    | error eM =>
      have hEq : multiString.unmarshalPlistWire v =
          multiString.UnmarshalPlist (.error eS) (.error eM) := by
        unfold multiString.unmarshalPlistWire
        rw [hS, hM]
      rw [hEq, multiString_UnmarshalPlist_double_error]
      cases hA : eM.asUnmarshalType with
      | some p =>
        obtain ⟨pv, pt⟩ := p
        exact ⟨_, rfl⟩
      | none => exact ⟨_, rfl⟩

/-- Witness for C5: the integer wire value 42 fails to unmarshal, and the
re-raised structured error names cfgprofiles.multiString. -/
theorem multiString_unmarshal_error_naming_witness :
    (∃ e, multiString.unmarshalPlistWire (.int 42) = .error e) ∧
    multiString.UnmarshalPlist (.error (.unmarshalType "42" "string"))
        (.error (.unmarshalType "42" "[]string")) =
      .error (.unmarshalType "42" "cfgprofiles.multiString") :=
  ⟨multiString_unmarshal_error_naming.1 (.int 42)
      (fun _ h => PlistValue.noConfusion h)
      (fun _ h => PlistValue.noConfusion h),
    multiString_unmarshal_error_naming.2.1 (.unmarshalType "42" "string") "42" "[]string"⟩

/-- Claim C6: if the first-pass discriminator decode fails, or the
second-pass body decode into the registry-selected variant fails, the very
error from the underlying codec is returned unchanged (no fallback to the
unknown variant) and the stored Payload field of the wrapper is left
unmodified. -/
theorem payloadWrapper_unmarshal_error_propagation :
    (∀ (e : DecodeError) (bp : GoValue → Except DecodeError GoValue)
        (w : payloadWrapper),
      payloadWrapper.UnmarshalPlist (.error e) bp w = (w, some e)) ∧
    (∀ (t : String) (bp : GoValue → Except DecodeError GoValue)
        (w : payloadWrapper) (e : DecodeError),
      bp (newPayloadForType t) = .error e →
      payloadWrapper.UnmarshalPlist (.ok t) bp w = (w, some e)) := by
  constructor
  · intro e bp w
    rfl
  · intro t bp w e h
    show (match bp (newPayloadForType t) with
      | .error e => (w, some e)
      | .ok plStruct => (({ Payload := plStruct } : payloadWrapper), none)) = (w, some e)
    rw [h]

/-- Witness for C6: a body decode failing on the variant selected for a
recognised discriminator propagates the codec error and leaves the wrapper
untouched. -/
theorem payloadWrapper_unmarshal_error_propagation_witness :
    payloadWrapper.UnmarshalPlist (.ok "com.apple.mdm")
        (fun _ => .error (.other "boom")) { Payload := .otherType } =
      ({ Payload := GoValue.otherType }, some (.other "boom")) :=
  payloadWrapper_unmarshal_error_propagation.2 "com.apple.mdm"
    (fun _ => .error (.other "boom")) { Payload := .otherType } (.other "boom") rfl

/-- Claim C7: whenever payloadWrapper.UnmarshalPlist succeeds on a wire
sub-document, the stored Payload Value has the dynamic type the registry
assigns to the discriminator string read in the first pass (unknown
strings landing in the common Payload variant), and its PayloadType field
equals that discriminator string. -/
theorem payloadWrapper_unmarshal_discriminator_invariant (v : PlistValue)
    (w w' : payloadWrapper)
    (h : payloadWrapper.unmarshalPlistWire v w = (w', none)) :
    ∃ t pl, decodePayloadTypeOnly v = .ok t ∧
      w'.Payload.typeName = (newPayloadForType t).typeName ∧
      CommonPayload w'.Payload = some pl ∧ pl.PayloadType = t := by
  unfold payloadWrapper.unmarshalPlistWire at h
  cases hT : decodePayloadTypeOnly v with
  | error e =>
    rw [hT] at h
    simp only [payloadWrapper.UnmarshalPlist] at h
    simp [Prod.ext_iff] at h
  | ok t =>
    rw [hT] at h
    simp only [payloadWrapper.UnmarshalPlist] at h
    cases hB : decodePayloadStruct (newPayloadForType t) v with
    | error e =>
      rw [hB] at h
      simp [Prod.ext_iff] at h
    | ok pv =>
      rw [hB] at h
      have hw : w' = { Payload := pv } := by
        simpa [Prod.ext_iff, eq_comm] using h
      subst hw
      have hes : ∃ es, v = PlistValue.dict es := by
        cases v <;> simp only [decodePayloadTypeOnly] at hT <;> simp_all
      obtain ⟨es, hv⟩ := hes
      subst hv
      refine ⟨t, ?_⟩
      rcases hN : newPayloadForType t with p | p | p | p | p | _ <;> rw [hN] at hB
      case certificatePKCS1 =>
        have hB' : (decodeCertificatePKCS1 es).map GoValue.certificatePKCS1 = .ok pv := hB
        obtain ⟨q, hq, hpv⟩ := map_ok hB'
        subst hpv
        have hT' : decodeField decodeStr "" "PayloadType" es = .ok t := hT
        have hc := decodePayloadFields_payloadType (decodeCertificatePKCS1_common hq)
        rw [hT'] at hc
        exact ⟨q.Payload, rfl, rfl, rfl, (Except.ok.inj hc).symm⟩
      case mdm =>
        have hB' : (decodeMDM es).map GoValue.mdm = .ok pv := hB
        obtain ⟨q, hq, hpv⟩ := map_ok hB'
        subst hpv
        have hT' : decodeField decodeStr "" "PayloadType" es = .ok t := hT
        have hc := decodePayloadFields_payloadType (decodeMDM_common hq)
        rw [hT'] at hc
        exact ⟨q.Payload, rfl, rfl, rfl, (Except.ok.inj hc).symm⟩
      case scep =>
        have hB' : (decodeSCEP es).map GoValue.scep = .ok pv := hB
        obtain ⟨q, hq, hpv⟩ := map_ok hB'
        subst hpv
        have hT' : decodeField decodeStr "" "PayloadType" es = .ok t := hT
        have hc := decodePayloadFields_payloadType (decodeSCEP_common hq)
        rw [hT'] at hc
        exact ⟨q.Payload, rfl, rfl, rfl, (Except.ok.inj hc).symm⟩
      case acme =>
        have hB' : (decodeACME es).map GoValue.acme = .ok pv := hB
        obtain ⟨q, hq, hpv⟩ := map_ok hB'
        subst hpv
        have hT' : decodeField decodeStr "" "PayloadType" es = .ok t := hT
        have hc := decodePayloadFields_payloadType (decodeACME_common hq)
        rw [hT'] at hc
        exact ⟨q.Payload, rfl, rfl, rfl, (Except.ok.inj hc).symm⟩
      case payload =>
        have hB' : (decodePayloadFields es).map GoValue.payload = .ok pv := hB
        obtain ⟨q, hq, hpv⟩ := map_ok hB'
        subst hpv
        have hT' : decodeField decodeStr "" "PayloadType" es = .ok t := hT
        have hc := decodePayloadFields_payloadType hq
        rw [hT'] at hc
        exact ⟨q, rfl, rfl, rfl, (Except.ok.inj hc).symm⟩
      case otherType =>
        exact Except.noConfusion hB

/-- Witness for C7: a sub-document with the unrecognised discriminator
com.example.custom decodes into the common Payload variant whose
PayloadType field holds that string. -/
theorem payloadWrapper_unmarshal_discriminator_invariant_witness :
    ∃ t pl,
      decodePayloadTypeOnly (.dict [("PayloadType", .str "com.example.custom"),
          ("PayloadIdentifier", .str "id1")]) = .ok t ∧
      (GoValue.payload { Payload.empty with PayloadIdentifier := "id1", PayloadType := "com.example.custom" }).typeName =
        (newPayloadForType t).typeName ∧
      CommonPayload (GoValue.payload { Payload.empty with PayloadIdentifier := "id1", PayloadType := "com.example.custom" }) = some pl ∧
      pl.PayloadType = t :=
  payloadWrapper_unmarshal_discriminator_invariant
    (.dict [("PayloadType", .str "com.example.custom"),
      ("PayloadIdentifier", .str "id1")])
    { Payload := .otherType }
    { Payload := .payload { Payload.empty with PayloadIdentifier := "id1", PayloadType := "com.example.custom" } }
    rfl

/-- Counterexample to claim C8 as stated: the empty wire sequence decodes
successfully to the zero-length multiString, so a successful decode does
not always have length at least 1. -/
theorem multiString_unmarshal_empty_counterexample :
    ¬ (∀ (v : PlistValue) (m : multiString),
        multiString.unmarshalPlistWire v = .ok m → 1 ≤ m.length) := by
  intro hAll
  have h := hAll (.array []) [] rfl
  exact absurd h (by decide)

/-- Claim C8 amended: for every wire value other than the empty sequence
on which multiString.UnmarshalPlist succeeds, the resulting canonical
sequence has length at least 1; the empty wire sequence decodes
successfully to the zero-length value. -/
theorem multiString_unmarshal_nonempty_amended (v : PlistValue)
    (m : multiString) (h : multiString.unmarshalPlistWire v = .ok m)
    (hv : v ≠ .array []) : 1 ≤ m.length := by
  cases hS : decodeStr v with
  | ok s =>
    have hEq : multiString.unmarshalPlistWire v = .ok [s] := by
      unfold multiString.unmarshalPlistWire
      rw [hS]
      rfl
    rw [hEq] at h
    obtain rfl : ([s] : multiString) = m := Except.ok.inj h
    simp
  | error eS =>
    cases hM : decodeStringList v with
    | ok xs =>
      have hEq : multiString.unmarshalPlistWire v = .ok xs := by
        unfold multiString.unmarshalPlistWire
        rw [hS, hM]
        rfl
      rw [hEq] at h
      obtain rfl : xs = m := Except.ok.inj h
      have hvEq := decodeStringList_ok hM
      cases xs with
      | nil => exact absurd hvEq hv
      | cons a as => simp
    | error eM =>
      have hEq : multiString.unmarshalPlistWire v =
          multiString.UnmarshalPlist (.error eS) (.error eM) := by
        unfold multiString.unmarshalPlistWire
        rw [hS, hM]
      obtain ⟨e, he⟩ := unmarshalPlist_double_error_exists eS eM
      rw [hEq, he] at h
      exact Except.noConfusion h

/-- Witness for the amended C8: a scalar string wire value decodes to a
one-element sequence. -/
theorem multiString_unmarshal_nonempty_amended_witness :
    1 ≤ (["test.example.com"] : multiString).length :=
  multiString_unmarshal_nonempty_amended (.str "test.example.com")
    ["test.example.com"] rfl (fun h => PlistValue.noConfusion h)

/-- Claim C9: CommonPayload returns the embedded common Payload record
(a non-nil pointer) for every value newPayloadForType or the payload
constructors produce, and nil for an argument of any other dynamic type. -/
theorem commonPayload_variants :
    (∀ t, (CommonPayload (newPayloadForType t)).isSome = true) ∧
    (∀ u i, CommonPayload (.certificatePKCS1 (NewCertificatePKCS1Payload u i)) =
      some (NewCertificatePKCS1Payload u i).Payload) ∧
    (∀ u i, CommonPayload (.mdm (NewMDMPayload u i)) =
      some (NewMDMPayload u i).Payload) ∧
    (∀ u i, CommonPayload (.scep (NewSCEPPayload u i)) =
      some (NewSCEPPayload u i).Payload) ∧
    (∀ u i, CommonPayload (.acme (NewACMECertificatePayload u i)) =
      some (NewACMECertificatePayload u i).Payload) ∧
    (∀ u t i, CommonPayload (.payload (NewPayload u t i)) = some (NewPayload u t i)) ∧
    CommonPayload .otherType = none := by
  refine ⟨?_, fun _ _ => rfl, fun _ _ => rfl, fun _ _ => rfl, fun _ _ => rfl,
    fun _ _ _ => rfl, rfl⟩
  intro t
  unfold newPayloadForType
  split <;> rfl

/-- Claim C10: Profile.AddPayload appends exactly one wrapper holding the
given payload at the end of the payload sequence; the prior entries are
unchanged and in place, and every other field of the profile is
unchanged. -/
theorem profile_addPayload_appends (p : Profile) (pld : GoValue) :
    (p.AddPayload pld).PayloadContent.length = p.PayloadContent.length + 1 ∧
    (p.AddPayload pld).PayloadContent.take p.PayloadContent.length =
      p.PayloadContent ∧
    (p.AddPayload pld).PayloadContent.drop p.PayloadContent.length =
      [{ Payload := pld }] ∧
    (p.AddPayload pld).Payload = p.Payload ∧
    (p.AddPayload pld).PayloadExpirationDate = p.PayloadExpirationDate ∧
    (p.AddPayload pld).PayloadRemovalDisallowed = p.PayloadRemovalDisallowed ∧
    (p.AddPayload pld).PayloadScope = p.PayloadScope ∧
    (p.AddPayload pld).PayloadDate = p.PayloadDate ∧
    (p.AddPayload pld).DurationUntilRemoval = p.DurationUntilRemoval ∧
    (p.AddPayload pld).ConsentText = p.ConsentText ∧
    (p.AddPayload pld).EncryptedPayloadContent = p.EncryptedPayloadContent ∧
    (p.AddPayload pld).HasRemovalPasscode = p.HasRemovalPasscode ∧
    (p.AddPayload pld).IsEncrypted = p.IsEncrypted ∧
    (p.AddPayload pld).RemovalDate = p.RemovalDate ∧
    (p.AddPayload pld).TargetDeviceType = p.TargetDeviceType := by
  refine ⟨?_, ?_, ?_, rfl, rfl, rfl, rfl, rfl, rfl, rfl, rfl, rfl, rfl, rfl, rfl⟩
  · simp [Profile.AddPayload]
  · exact List.take_left p.PayloadContent [{ Payload := pld }]
  · exact List.drop_left p.PayloadContent [{ Payload := pld }]

end Cfgprofiles
